import Mathlib

/-!
# libcage: the UDP receiver of `cage.cpp` and the RDP declarations of `rdp.hpp`

A shallow embedding of `cage::udp_receiver::operator()`, the `cage` constructor,
`rdp_addr::operator==` and the RDP header types, with the properties stated by the
specification proved over it.

Conventions.
* `int` is a mathematical `Int`; a `(int)sizeof(..)` cast is `int_cast`, the
  two's-complement reading of the low 32 bits; `size_t` arithmetic is modulo `2^64`.
* A buffer is the list of its bytes; a byte read outside the list yields `0`.
* The receiver returns the header fields it read and the handler calls it made,
  both in program order.
-/

namespace libcage

/-! ## Machine integers -/

/-- The cast `(int)n` of an unsigned value: low 32 bits, two's complement. -/
def int_cast (n : Nat) : Int :=
  if n % 4294967296 < 2147483648 then ((n % 4294967296 : Nat) : Int)
  else ((n % 4294967296 : Nat) : Int) - 4294967296

/-- Subtraction of two `size_t` values, modulo `2^64`. -/
def size_sub (a b : Nat) : Nat :=
  (a % 18446744073709551616 + 18446744073709551616 - b % 18446744073709551616)
    % 18446744073709551616

/-- The value of `sizeof(uint32_t)`. -/
def sizeof_uint32_t : Nat := 4

/-- One byte of a buffer. -/
def byte_at (buf : List Nat) (i : Nat) : Nat := buf.getD i 0 % 256

/-! ## What `cagetypes.hpp` declares

`cage.cpp` includes `cagetypes.hpp`, which is not part of the sources at hand. The
receiver uses from it the layout of `msg_hdr` (where `magic`, `ver` and `type` sit),
two constants, the ten message type codes and the sizes of the message structures.
They are parameters of the embedding. -/

/-- The declarations of `cagetypes.hpp` that `cage::udp_receiver::operator()` uses. -/
structure cagetypes where
  sizeof_msg_hdr : Nat
  magic_offset : Nat
  ver_offset : Nat
  type_offset : Nat
  MAGIC_NUMBER : Nat
  CAGE_VERSION : Nat
  type_nat_echo : Nat
  type_nat_echo_reply : Nat
  type_nat_echo_redirect : Nat
  type_dtun_ping : Nat
  type_dtun_ping_reply : Nat
  type_dtun_find_node : Nat
  type_dtun_find_node_reply : Nat
  type_dtun_register : Nat
  type_dtun_find_value : Nat
  type_dtun_find_value_reply : Nat
  sizeof_msg_nat_echo : Nat
  sizeof_msg_nat_echo_reply : Nat
  sizeof_msg_nat_echo_redirect : Nat
  sizeof_msg_dtun_ping : Nat
  sizeof_msg_dtun_ping_reply : Nat
  sizeof_msg_dtun_find_node : Nat
  sizeof_msg_dtun_find_node_reply : Nat
  sizeof_msg_dtun_register : Nat
  sizeof_msg_dtun_find_value : Nat
  sizeof_msg_dtun_find_value_reply : Nat

/-- The ten `case` labels of the receiver's `switch`, in source order. -/
def cagetypes.case_labels (T : cagetypes) : List Nat :=
  [T.type_nat_echo, T.type_nat_echo_reply, T.type_nat_echo_redirect, T.type_dtun_ping,
   T.type_dtun_ping_reply, T.type_dtun_find_node, T.type_dtun_find_node_reply,
   T.type_dtun_register, T.type_dtun_find_value, T.type_dtun_find_value_reply]

/-- The sizes of the ten message structures, in source order. -/
def cagetypes.message_sizes (T : cagetypes) : List Nat :=
  [T.sizeof_msg_nat_echo, T.sizeof_msg_nat_echo_reply, T.sizeof_msg_nat_echo_redirect,
   T.sizeof_msg_dtun_ping, T.sizeof_msg_dtun_ping_reply, T.sizeof_msg_dtun_find_node,
   T.sizeof_msg_dtun_find_node_reply, T.sizeof_msg_dtun_register,
   T.sizeof_msg_dtun_find_value, T.sizeof_msg_dtun_find_value_reply]

/-- What any compilable `cagetypes.hpp` satisfies: the `case` labels of one `switch`
are pairwise different, every structure size fits an `int`, and the two reply
structures hold at least the `uint32_t` that is subtracted from their size. -/
def cagetypes.wf (T : cagetypes) : Prop :=
  T.case_labels.Nodup ∧
  T.sizeof_msg_hdr < 2147483648 ∧
  (∀ s ∈ T.message_sizes, s < 2147483648) ∧
  sizeof_uint32_t ≤ T.sizeof_msg_dtun_find_node_reply ∧
  sizeof_uint32_t ≤ T.sizeof_msg_dtun_find_value_reply

instance (T : cagetypes) : Decidable T.wf :=
  inferInstanceAs (Decidable (T.case_labels.Nodup ∧ T.sizeof_msg_hdr < 2147483648 ∧
    (∀ s ∈ T.message_sizes, s < 2147483648) ∧
    sizeof_uint32_t ≤ T.sizeof_msg_dtun_find_node_reply ∧
    sizeof_uint32_t ≤ T.sizeof_msg_dtun_find_value_reply))

/-- The expression `ntohs(hdr->magic)`: the two bytes of the field, most significant
first. -/
def hdr_magic (T : cagetypes) (buf : List Nat) : Nat :=
  byte_at buf T.magic_offset * 256 + byte_at buf (T.magic_offset + 1)

/-- The expression `hdr->ver`. -/
def hdr_ver (T : cagetypes) (buf : List Nat) : Nat := byte_at buf T.ver_offset

/-- The expression `hdr->type`. -/
def hdr_type (T : cagetypes) (buf : List Nat) : Nat := byte_at buf T.type_offset

/-! ## The receiver -/

/-- The header fields the receiver may read. -/
inductive hdr_field where
  | magic
  | ver
  | type
  deriving DecidableEq, Repr

/-- The calls that leave the receiver: the member functions of `m_nat` and `m_dtun`
named in `cage.cpp`, with their arguments, and `rdp::input_dgram` of `rdp.hpp`.
A socket address is a number, a peer id is a number. -/
inductive handler_call where
  | recv_echo (buf : List Nat) (src : Nat) (fromlen : Int)
  | recv_echo_reply (buf : List Nat) (src : Nat) (fromlen : Int)
  | recv_echo_redirect (buf : List Nat) (src : Nat) (fromlen : Int)
  | recv_ping (buf : List Nat) (src : Nat) (fromlen : Int)
  | recv_ping_reply (buf : List Nat) (src : Nat) (fromlen : Int)
  | recv_find_node (buf : List Nat) (src : Nat) (fromlen : Int)
  | recv_find_node_reply (buf : List Nat) (len : Int) (src : Nat)
  | recv_register (buf : List Nat) (src : Nat)
  | recv_find_value (buf : List Nat) (src : Nat) (fromlen : Int)
  | recv_find_value_reply (buf : List Nat) (len : Int) (src : Nat)
  | input_dgram (peer : Nat) (buf : List Nat) (len : Int)
  deriving DecidableEq, Repr

/-- Whether a call is `rdp::input_dgram`. -/
def handler_call.is_input_dgram : handler_call → Bool
  | .input_dgram _ _ _ => true
  | _ => false

/-- The observable run of the receiver on one datagram. -/
structure receiver_run where
  reads : List hdr_field
  calls : List handler_call
  deriving DecidableEq, Repr

/-- The `switch (hdr->type)` of the receiver: the first matching label decides, and
the length test of that case decides whether its handler is called. -/
def dispatch (T : cagetypes) (buf : List Nat) (len : Int) (src : Nat) (fromlen : Int) :
    List handler_call :=
  let ty := hdr_type T buf
  if ty = T.type_nat_echo then
    if len = int_cast T.sizeof_msg_nat_echo then [.recv_echo buf src fromlen] else []
  else if ty = T.type_nat_echo_reply then
    if len = int_cast T.sizeof_msg_nat_echo_reply then [.recv_echo_reply buf src fromlen]
    else []
  else if ty = T.type_nat_echo_redirect then
    if len = int_cast T.sizeof_msg_nat_echo_redirect then
      [.recv_echo_redirect buf src fromlen]
    else []
  else if ty = T.type_dtun_ping then
    if len = int_cast T.sizeof_msg_dtun_ping then [.recv_ping buf src fromlen] else []
  else if ty = T.type_dtun_ping_reply then
    if len = int_cast T.sizeof_msg_dtun_ping_reply then [.recv_ping_reply buf src fromlen]
    else []
  else if ty = T.type_dtun_find_node then
    if len = int_cast T.sizeof_msg_dtun_find_node then [.recv_find_node buf src fromlen]
    else []
  else if ty = T.type_dtun_find_node_reply then
    if len ≥ int_cast (size_sub T.sizeof_msg_dtun_find_node_reply sizeof_uint32_t) then
      [.recv_find_node_reply buf len src]
    else []
  else if ty = T.type_dtun_register then
    if len = int_cast T.sizeof_msg_dtun_register then [.recv_register buf src] else []
  else if ty = T.type_dtun_find_value then
    if len = int_cast T.sizeof_msg_dtun_find_value then [.recv_find_value buf src fromlen]
    else []
  else if ty = T.type_dtun_find_value_reply then
    if len ≥ int_cast (size_sub T.sizeof_msg_dtun_find_value_reply sizeof_uint32_t) then
      [.recv_find_value_reply buf len src]
    else []
  else []

/-- The function `cage::udp_receiver::operator()`. The `udphandler` and `is_timeout`
arguments are not used by the body; `is_timeout` is kept as an argument. -/
def udp_receiver (T : cagetypes) (buf : List Nat) (len : Int) (src : Nat) (fromlen : Int)
    (_is_timeout : Bool) : receiver_run :=
  if len < int_cast T.sizeof_msg_hdr then
    { reads := [], calls := [] }
  else if hdr_magic T buf ≠ T.MAGIC_NUMBER then
    { reads := [.magic], calls := [] }
  else if hdr_ver T buf ≠ T.CAGE_VERSION then
    { reads := [.magic, .ver], calls := [] }
  else
    { reads := [.magic, .ver, .type], calls := dispatch T buf len src fromlen }

/-- A sample instantiation of `cagetypes.hpp`: a 48-byte header that starts with a
two-byte magic, a version byte and a type byte. -/
def sample_types : cagetypes where
  sizeof_msg_hdr := 48
  magic_offset := 0
  ver_offset := 2
  type_offset := 3
  MAGIC_NUMBER := 47806
  CAGE_VERSION := 0
  type_nat_echo := 1
  type_nat_echo_reply := 2
  type_nat_echo_redirect := 3
  type_dtun_ping := 4
  type_dtun_ping_reply := 5
  type_dtun_find_node := 6
  type_dtun_find_node_reply := 7
  type_dtun_register := 8
  type_dtun_find_value := 9
  type_dtun_find_value_reply := 10
  sizeof_msg_nat_echo := 52
  sizeof_msg_nat_echo_reply := 60
  sizeof_msg_nat_echo_redirect := 56
  sizeof_msg_dtun_ping := 52
  sizeof_msg_dtun_ping_reply := 52
  sizeof_msg_dtun_find_node := 76
  sizeof_msg_dtun_find_node_reply := 80
  sizeof_msg_dtun_register := 52
  sizeof_msg_dtun_find_value := 76
  sizeof_msg_dtun_find_value_reply := 84

/-- A datagram for `sample_types`: good magic `0xbabe`, version `0`, the given type
byte, then zero bytes up to `n` bytes in all (for `n` of at least four). -/
def sample_dgram (ty n : Nat) : List Nat :=
  [186, 190, 0, ty] ++ List.replicate (n - 4) 0

/-! ## The constructor `cage::cage` -/

/-- The call `RAND_pseudo_bytes(buf, num)` of OpenSSL: it fills `num` bytes, here the
first `num` bytes of the pseudo-random stream. -/
def RAND_pseudo_bytes (stream : Nat → Nat) (num : Nat) : List Nat :=
  (List.range num).map (fun i => stream i % 256)

/-- What the body of the constructor does: the length it asks the random source for,
the arguments it hands to `from_binary`, and the resulting `m_id`. -/
structure cage_ctor_run (Id : Type) where
  rand_num : Nat
  from_binary_buf : List Nat
  from_binary_len : Nat
  m_id : Id

/-- The body of `cage::cage()`. The array `buf` has 20 elements, so `sizeof(buf)` is
20. The conversion `from_binary` belongs to the id type, declared outside the sources
at hand, and is a parameter. -/
def cage_ctor {Id : Type} (from_binary : List Nat → Nat → Id) (stream : Nat → Nat) :
    cage_ctor_run Id :=
  let sizeof_buf : Nat := 20
  let buf := RAND_pseudo_bytes stream sizeof_buf
  { rand_num := sizeof_buf
    from_binary_buf := buf
    from_binary_len := sizeof_buf
    m_id := from_binary buf sizeof_buf }

/-! ## The declarations of `rdp.hpp` -/

/-- The enumeration `rdp_state`. -/
inductive rdp_state where
  | CLOSED
  | LISTEN
  | SYN_SENT
  | SYN_RCVD
  | OPEN
  | CLOSE_WAIT
  deriving DecidableEq, Repr

/-- The fixed-width integer types used by the RDP structures. -/
inductive c_scalar where
  | uint8_t
  | uint16_t
  | uint32_t
  deriving DecidableEq, Repr

/-- Width in bytes of a fixed-width integer type. -/
def c_scalar.width : c_scalar → Nat
  | .uint8_t => 1
  | .uint16_t => 2
  | .uint32_t => 4

/-- A member of a structure declaration: a scalar, or an embedded structure given by
its own scalar members. -/
inductive c_member where
  | scalar (name : String) (ty : c_scalar)
  | embedded (name : String) (members : List (String × c_scalar))
  deriving DecidableEq, Repr

/-- The declaration `struct rdp_head`, member by member. -/
def rdp_head_decl : List (String × c_scalar) :=
  [("flags", .uint8_t), ("hlen", .uint8_t), ("sport", .uint16_t), ("dport", .uint16_t),
   ("dlen", .uint16_t), ("seqnum", .uint32_t), ("acknum", .uint32_t),
   ("checksum", .uint8_t)]

/-- The declaration `struct rdp_syn`, member by member. -/
def rdp_syn_decl : List c_member :=
  [.embedded "head" rdp_head_decl, .scalar "out_segs_max" .uint16_t,
   .scalar "seg_size_max" .uint16_t, .scalar "options" .uint16_t]

/-- The scalar members of a declaration in order, embedded structures expanded. -/
def c_flatten : List c_member → List (String × c_scalar)
  | [] => []
  | .scalar n t :: rest => (n, t) :: c_flatten rest
  | .embedded _ ms :: rest => ms ++ c_flatten rest

/-- Member names with their widths in bytes. -/
def c_widths (ms : List (String × c_scalar)) : List (String × Nat) :=
  ms.map (fun m => (m.1, m.2.width))

/-- A value of `struct rdp_head`. -/
structure rdp_head where
  flags : Nat
  hlen : Nat
  sport : Nat
  dport : Nat
  dlen : Nat
  seqnum : Nat
  acknum : Nat
  checksum : Nat
  deriving DecidableEq, Repr

/-- The class `rdp_addr`. The member `did` is a pointer to a peer id; the ids
themselves live in a heap that maps an address to the id stored there. -/
structure rdp_addr where
  did : Nat
  dport : Nat
  sport : Nat
  deriving DecidableEq, Repr

/-- Modelled from the spec: the comparison of two peer ids, the `operator==` of the id
type, which is declared outside the sources at hand. Sections 1 and 3: a peer id is a
160-bit identifier, here a number, and connection identities "compare by value". -/
def id_eq (x y : Nat) : Bool := x == y

/-- The operator `rdp_addr::operator==`; `heap p` is `*p`, the id that the pointer `p`
points to. -/
def rdp_addr.eq (heap : Nat → Nat) (a addr : rdp_addr) : Bool :=
  id_eq (heap a.did) (heap addr.did) && a.dport == addr.dport && a.sport == addr.sport

/-- The class `rdp_con`. -/
structure rdp_con where
  addr : rdp_addr
  state : rdp_state
  closewait : Nat
  sbuf_max : Nat
  rbuf_max : Nat
  snd_nxt : Nat
  snd_una : Nat
  snd_max : Nat
  snd_iss : Nat
  rcv_cur : Nat
  rcv_max : Nat
  rcvdsendq : List Nat
  seg_seq : Nat
  seg_ack : Nat
  seg_max : Nat
  seg_bmax : Nat
  deriving DecidableEq, Repr

/-- The flag constants of class `rdp`; `rdp.hpp` declares them without values. -/
structure rdp_flags where
  flag_syn : Nat
  flag_ack : Nat
  flag_eak : Nat
  flag_rst : Nat
  flag_nul : Nat
  flag_ver : Nat

/-! ## Sequence arithmetic and the OPEN state, from the specification

`rdp.hpp` declares `rdp::in_state_open` and the 32-bit sequence variables of
`rdp_con`; the bodies that compare and update them are in no source file at hand. -/

/-- Modelled from the spec: the signed difference of two 32-bit sequence numbers, which
the sources do not define. Section 4.1: "the signed difference, computed modulo 2^32";
the number congruent to `a - b` modulo `2^32` that lies in the half-range around zero.
Section 4.1 alone leaves open which sign the residue `2^31` takes; section 8 settles it,
"precedes(x, x + 2^31) is false (boundary of the half-range rule)", so the residue
`2^31` is the difference `+2^31` and the range is from `-2^31 + 1` to `2^31`. -/
def seq_diff (a b : Nat) : Int :=
  if (a % 4294967296 + 4294967296 - b % 4294967296) % 4294967296 ≤ 2147483648 then
    (((a % 4294967296 + 4294967296 - b % 4294967296) % 4294967296 : Nat) : Int)
  else
    (((a % 4294967296 + 4294967296 - b % 4294967296) % 4294967296 : Nat) : Int) - 4294967296

/-- Modelled from the spec: the comparison `precedes(a, b)`, which the sources do not
define. Section 4.1: "a sequence number is less than another if the signed difference,
computed modulo 2^32, is negative". -/
def precedes (a b : Nat) : Bool := decide (seq_diff a b < 0)

/-- Modelled from the spec: the function `distance(a, b)`, which the sources do not
define. Section 3: the number of outstanding segments is `distance(snd_nxt, snd_una)`;
the difference `a - b` modulo `2^32`. -/
def distance (a b : Nat) : Nat :=
  (a % 4294967296 + 4294967296 - b % 4294967296) % 4294967296

/-- Whether a flag bit is set in the header. -/
def has_flag (head : rdp_head) (flag : Nat) : Bool := head.flags &&& flag != 0

/-- Modelled from the spec: folding the now-contiguous entries of `rcvdsendq` into
`rcv_cur`, part of the absent body of `rdp::in_state_open`. Section 4.4: an in-order
segment "folds in any now-contiguous entries from rcvdsendq". At most `fuel` entries
are folded; the queue length is enough fuel. -/
def fold_contiguous : Nat → Nat → List Nat → Nat × List Nat
  | 0, cur, q => (cur, q)
  | fuel + 1, cur, q =>
    let nxt := (cur + 1) % 4294967296
    if nxt ∈ q then fold_contiguous fuel nxt (q.erase nxt) else (cur, q)

/-- Modelled from the spec: the receive side of the absent body of
`rdp::in_state_open`. Section 4.4: an in-order segment (`seg_seq == rcv_cur + 1`)
advances `rcv_cur` and folds the queue; an out-of-order segment within the `rcv_max`
window is buffered into `rcvdsendq`; a segment outside the window is dropped (`none`). -/
def receive_segment (con : rdp_con) : Option rdp_con :=
  if con.seg_seq % 4294967296 = (con.rcv_cur + 1) % 4294967296 then
    let r := fold_contiguous con.rcvdsendq.length (con.seg_seq % 4294967296) con.rcvdsendq
    some { con with rcv_cur := r.1, rcvdsendq := r.2 }
  else if precedes con.rcv_cur con.seg_seq && decide (distance con.seg_seq con.rcv_cur ≤ con.rcv_max)
  then
    if con.seg_seq % 4294967296 ∈ con.rcvdsendq then some con
    else some { con with rcvdsendq := con.rcvdsendq ++ [con.seg_seq % 4294967296] }
  else none

/-- Modelled from the spec: the acknowledgement step of the absent body of
`rdp::in_state_open`. Section 4.4: "acknowledgement advances snd_una to seg_ack only
if seg_ack is sequence-greater-or-equal than current snd_una". -/
def process_ack (con : rdp_con) : rdp_con :=
  if precedes con.seg_ack con.snd_una then con else { con with snd_una := con.seg_ack }

/-- Modelled from the spec: the body of `rdp::in_state_open`, which `rdp.hpp` declares
and no source file at hand defines. Section 4.4: a peer RST closes the connection; an
unexpected SYN on an OPEN connection is discarded; the sequence and acknowledgement
numbers of the segment are copied to the scratch fields; a segment outside the receive
window is dropped; every accepted segment that carries an ACK field updates `snd_una`.
The result is the connection after the segment. -/
def in_state_open (F : rdp_flags) (con : rdp_con) (_addr : rdp_addr) (head : rdp_head)
    (_len : Int) : rdp_con :=
  if has_flag head F.flag_rst then { con with state := .CLOSED }
  else if has_flag head F.flag_syn then con
  else
    match receive_segment { con with seg_seq := head.seqnum, seg_ack := head.acknum } with
    | none => con
    | some acc => if has_flag head F.flag_ack then process_ack acc else acc

/-- A sample assignment of the six flag bits. -/
def sample_flags : rdp_flags where
  flag_syn := 128
  flag_ack := 64
  flag_eak := 32
  flag_rst := 16
  flag_nul := 8
  flag_ver := 2

/-- A sample connection in state OPEN: `snd_una` is 100, `rcv_cur` is 7. -/
def sample_con : rdp_con where
  addr := { did := 0, dport := 1, sport := 2 }
  state := .OPEN
  closewait := 0
  sbuf_max := 1024
  rbuf_max := 1024
  snd_nxt := 110
  snd_una := 100
  snd_max := 16
  snd_iss := 90
  rcv_cur := 7
  rcv_max := 16
  rcvdsendq := []
  seg_seq := 0
  seg_ack := 0
  seg_max := 16
  seg_bmax := 1024

/-- A sample in-order segment with the ACK flag, sequence number 8 and the given
acknowledgement number. -/
def sample_ack_segment (ack : Nat) : rdp_head where
  flags := 64
  hlen := 17
  sport := 1
  dport := 2
  dlen := 0
  seqnum := 8
  acknum := ack
  checksum := 0

/-- The functions a `handler_call` can name, without their arguments. -/
inductive handler_kind where
  | recv_echo
  | recv_echo_reply
  | recv_echo_redirect
  | recv_ping
  | recv_ping_reply
  | recv_find_node
  | recv_find_node_reply
  | recv_register
  | recv_find_value
  | recv_find_value_reply
  | input_dgram
  deriving DecidableEq, Repr

/-- The function that a call names. -/
def handler_call.kind : handler_call → handler_kind
  | .recv_echo _ _ _ => .recv_echo
  | .recv_echo_reply _ _ _ => .recv_echo_reply
  | .recv_echo_redirect _ _ _ => .recv_echo_redirect
  | .recv_ping _ _ _ => .recv_ping
  | .recv_ping_reply _ _ _ => .recv_ping_reply
  | .recv_find_node _ _ _ => .recv_find_node
  | .recv_find_node_reply _ _ _ => .recv_find_node_reply
  | .recv_register _ _ => .recv_register
  | .recv_find_value _ _ _ => .recv_find_value
  | .recv_find_value_reply _ _ _ => .recv_find_value_reply
  | .input_dgram _ _ _ => .input_dgram

/-- The handler named under the first `case` label of the receiver's `switch` that
equals the type code `ty`, if there is one. Only the type code enters. -/
def case_handler (T : cagetypes) (ty : Nat) : Option handler_kind :=
  if ty = T.type_nat_echo then some .recv_echo
  else if ty = T.type_nat_echo_reply then some .recv_echo_reply
  else if ty = T.type_nat_echo_redirect then some .recv_echo_redirect
  else if ty = T.type_dtun_ping then some .recv_ping
  else if ty = T.type_dtun_ping_reply then some .recv_ping_reply
  else if ty = T.type_dtun_find_node then some .recv_find_node
  else if ty = T.type_dtun_find_node_reply then some .recv_find_node_reply
  else if ty = T.type_dtun_register then some .recv_register
  else if ty = T.type_dtun_find_value then some .recv_find_value
  else if ty = T.type_dtun_find_value_reply then some .recv_find_value_reply
  else none

/-- A datagram passes the three checks that precede the `switch`: it has at least
header length, the right magic and the right version. -/
def passes_checks (T : cagetypes) (buf : List Nat) (len : Int) : Prop :=
  int_cast T.sizeof_msg_hdr ≤ len ∧ hdr_magic T buf = T.MAGIC_NUMBER ∧
    hdr_ver T buf = T.CAGE_VERSION

instance (T : cagetypes) (buf : List Nat) (len : Int) :
    Decidable (passes_checks T buf len) :=
  inferInstanceAs (Decidable (int_cast T.sizeof_msg_hdr ≤ len ∧
    hdr_magic T buf = T.MAGIC_NUMBER ∧ hdr_ver T buf = T.CAGE_VERSION))

/-! ## Properties of the receiver -/

theorem int_cast_of_lt {n : Nat} (h : n < 2147483648) : int_cast n = (n : Int) := by
  unfold int_cast
  have hmod : n % 4294967296 = n := Nat.mod_eq_of_lt (by omega)
  simp [hmod, h]

theorem int_cast_size_sub {n : Nat} (h4 : sizeof_uint32_t ≤ n) (h : n < 2147483648) :
    int_cast (size_sub n sizeof_uint32_t) = (n : Int) - 4 := by
  unfold sizeof_uint32_t at h4
  have hsub : size_sub n sizeof_uint32_t = n - 4 := by
    unfold size_sub sizeof_uint32_t
    omega
  rw [hsub, int_cast_of_lt (by omega)]
  omega

theorem udp_receiver_calls_of_passes (T : cagetypes) (buf : List Nat) (len : Int) (src : Nat)
    (fromlen : Int) (tmo : Bool) (hpass : passes_checks T buf len) :
    (udp_receiver T buf len src fromlen tmo).calls = dispatch T buf len src fromlen := by
  obtain ⟨hlen, hmagic, hver⟩ := hpass
  unfold udp_receiver
  rw [if_neg (not_lt.mpr hlen), if_neg (not_not.mpr hmagic), if_neg (not_not.mpr hver)]

theorem ite_elim {α : Type} (P : α → Prop) (c : Prop) [Decidable c] (a b : α)
    (ha : P a) (hb : P b) : P (if c then a else b) := by
  by_cases h : c
  · rw [if_pos h]; exact ha
  · rw [if_neg h]; exact hb

/-- Whatever the datagram, the `switch` calls nothing or makes one call, and that
call is not `rdp::input_dgram`. -/
theorem dispatch_elim (P : List handler_call → Prop) (T : cagetypes) (buf : List Nat)
    (len : Int) (src : Nat) (fromlen : Int)
    (hnone : P [])
    (hone : ∀ c : handler_call, c.is_input_dgram = false → P [c]) :
    P (dispatch T buf len src fromlen) := by
  simp only [dispatch]
  repeat' apply ite_elim P
  all_goals first | exact hnone | exact hone _ rfl

theorem case_labels_length (T : cagetypes) : T.case_labels.length = 10 := rfl

theorem case_labels_ne (T : cagetypes) (hnd : T.case_labels.Nodup) (i j : Nat) (hij : i ≠ j)
    (hi : i < 10) (hj : j < 10) : T.case_labels.getD i 0 ≠ T.case_labels.getD j 0 := by
  have hi2 : i < T.case_labels.length := by rw [case_labels_length]; exact hi
  have hj2 : j < T.case_labels.length := by rw [case_labels_length]; exact hj
  rw [List.getD_eq_getElem _ _ hi2, List.getD_eq_getElem _ _ hj2]
  intro h
  exact hij ((List.Nodup.getElem_inj_iff hnd).mp h)

theorem dispatch_nat_echo (T : cagetypes) (_hnd : T.case_labels.Nodup) (buf : List Nat)
    (len : Int) (src : Nat) (fromlen : Int) (hty : hdr_type T buf = T.type_nat_echo) :
    dispatch T buf len src fromlen =
      if len = int_cast T.sizeof_msg_nat_echo then [.recv_echo buf src fromlen] else [] := by
  simp only [dispatch]
  rw [hty, if_pos rfl]

theorem dispatch_nat_echo_reply (T : cagetypes) (hnd : T.case_labels.Nodup) (buf : List Nat)
    (len : Int) (src : Nat) (fromlen : Int) (hty : hdr_type T buf = T.type_nat_echo_reply) :
    dispatch T buf len src fromlen =
      if len = int_cast T.sizeof_msg_nat_echo_reply then [.recv_echo_reply buf src fromlen] else [] := by
  have h0 : T.type_nat_echo_reply ≠ T.type_nat_echo :=
    case_labels_ne T hnd 1 0 (by decide) (by decide) (by decide)
  simp only [dispatch]
  rw [hty, if_neg h0, if_pos rfl]

theorem dispatch_nat_echo_redirect (T : cagetypes) (hnd : T.case_labels.Nodup) (buf : List Nat)
    (len : Int) (src : Nat) (fromlen : Int) (hty : hdr_type T buf = T.type_nat_echo_redirect) :
    dispatch T buf len src fromlen =
      if len = int_cast T.sizeof_msg_nat_echo_redirect then [.recv_echo_redirect buf src fromlen] else [] := by
  have h0 : T.type_nat_echo_redirect ≠ T.type_nat_echo :=
    case_labels_ne T hnd 2 0 (by decide) (by decide) (by decide)
  have h1 : T.type_nat_echo_redirect ≠ T.type_nat_echo_reply :=
    case_labels_ne T hnd 2 1 (by decide) (by decide) (by decide)
  simp only [dispatch]
  rw [hty, if_neg h0, if_neg h1, if_pos rfl]

theorem dispatch_dtun_ping (T : cagetypes) (hnd : T.case_labels.Nodup) (buf : List Nat)
    (len : Int) (src : Nat) (fromlen : Int) (hty : hdr_type T buf = T.type_dtun_ping) :
    dispatch T buf len src fromlen =
      if len = int_cast T.sizeof_msg_dtun_ping then [.recv_ping buf src fromlen] else [] := by
  have h0 : T.type_dtun_ping ≠ T.type_nat_echo :=
    case_labels_ne T hnd 3 0 (by decide) (by decide) (by decide)
  have h1 : T.type_dtun_ping ≠ T.type_nat_echo_reply :=
    case_labels_ne T hnd 3 1 (by decide) (by decide) (by decide)
  have h2 : T.type_dtun_ping ≠ T.type_nat_echo_redirect :=
    case_labels_ne T hnd 3 2 (by decide) (by decide) (by decide)
  simp only [dispatch]
  rw [hty, if_neg h0, if_neg h1, if_neg h2, if_pos rfl]

theorem dispatch_dtun_ping_reply (T : cagetypes) (hnd : T.case_labels.Nodup) (buf : List Nat)
    (len : Int) (src : Nat) (fromlen : Int) (hty : hdr_type T buf = T.type_dtun_ping_reply) :
    dispatch T buf len src fromlen =
      if len = int_cast T.sizeof_msg_dtun_ping_reply then [.recv_ping_reply buf src fromlen] else [] := by
  have h0 : T.type_dtun_ping_reply ≠ T.type_nat_echo :=
    case_labels_ne T hnd 4 0 (by decide) (by decide) (by decide)
  have h1 : T.type_dtun_ping_reply ≠ T.type_nat_echo_reply :=
    case_labels_ne T hnd 4 1 (by decide) (by decide) (by decide)
  have h2 : T.type_dtun_ping_reply ≠ T.type_nat_echo_redirect :=
    case_labels_ne T hnd 4 2 (by decide) (by decide) (by decide)
  have h3 : T.type_dtun_ping_reply ≠ T.type_dtun_ping :=
    case_labels_ne T hnd 4 3 (by decide) (by decide) (by decide)
  simp only [dispatch]
  rw [hty, if_neg h0, if_neg h1, if_neg h2, if_neg h3, if_pos rfl]

theorem dispatch_dtun_find_node (T : cagetypes) (hnd : T.case_labels.Nodup) (buf : List Nat)
    (len : Int) (src : Nat) (fromlen : Int) (hty : hdr_type T buf = T.type_dtun_find_node) :
    dispatch T buf len src fromlen =
      if len = int_cast T.sizeof_msg_dtun_find_node then [.recv_find_node buf src fromlen] else [] := by
  have h0 : T.type_dtun_find_node ≠ T.type_nat_echo :=
    case_labels_ne T hnd 5 0 (by decide) (by decide) (by decide)
  have h1 : T.type_dtun_find_node ≠ T.type_nat_echo_reply :=
    case_labels_ne T hnd 5 1 (by decide) (by decide) (by decide)
  have h2 : T.type_dtun_find_node ≠ T.type_nat_echo_redirect :=
    case_labels_ne T hnd 5 2 (by decide) (by decide) (by decide)
  have h3 : T.type_dtun_find_node ≠ T.type_dtun_ping :=
    case_labels_ne T hnd 5 3 (by decide) (by decide) (by decide)
  have h4 : T.type_dtun_find_node ≠ T.type_dtun_ping_reply :=
    case_labels_ne T hnd 5 4 (by decide) (by decide) (by decide)
  simp only [dispatch]
  rw [hty, if_neg h0, if_neg h1, if_neg h2, if_neg h3, if_neg h4, if_pos rfl]

theorem dispatch_dtun_find_node_reply (T : cagetypes) (hnd : T.case_labels.Nodup) (buf : List Nat)
    (len : Int) (src : Nat) (fromlen : Int) (hty : hdr_type T buf = T.type_dtun_find_node_reply) :
    dispatch T buf len src fromlen =
      if len ≥ int_cast (size_sub T.sizeof_msg_dtun_find_node_reply sizeof_uint32_t) then [.recv_find_node_reply buf len src] else [] := by
  have h0 : T.type_dtun_find_node_reply ≠ T.type_nat_echo :=
    case_labels_ne T hnd 6 0 (by decide) (by decide) (by decide)
  have h1 : T.type_dtun_find_node_reply ≠ T.type_nat_echo_reply :=
    case_labels_ne T hnd 6 1 (by decide) (by decide) (by decide)
  have h2 : T.type_dtun_find_node_reply ≠ T.type_nat_echo_redirect :=
    case_labels_ne T hnd 6 2 (by decide) (by decide) (by decide)
  have h3 : T.type_dtun_find_node_reply ≠ T.type_dtun_ping :=
    case_labels_ne T hnd 6 3 (by decide) (by decide) (by decide)
  have h4 : T.type_dtun_find_node_reply ≠ T.type_dtun_ping_reply :=
    case_labels_ne T hnd 6 4 (by decide) (by decide) (by decide)
  have h5 : T.type_dtun_find_node_reply ≠ T.type_dtun_find_node :=
    case_labels_ne T hnd 6 5 (by decide) (by decide) (by decide)
  simp only [dispatch]
  rw [hty, if_neg h0, if_neg h1, if_neg h2, if_neg h3, if_neg h4, if_neg h5, if_pos rfl]

theorem dispatch_dtun_register (T : cagetypes) (hnd : T.case_labels.Nodup) (buf : List Nat)
    (len : Int) (src : Nat) (fromlen : Int) (hty : hdr_type T buf = T.type_dtun_register) :
    dispatch T buf len src fromlen =
      if len = int_cast T.sizeof_msg_dtun_register then [.recv_register buf src] else [] := by
  have h0 : T.type_dtun_register ≠ T.type_nat_echo :=
    case_labels_ne T hnd 7 0 (by decide) (by decide) (by decide)
  have h1 : T.type_dtun_register ≠ T.type_nat_echo_reply :=
    case_labels_ne T hnd 7 1 (by decide) (by decide) (by decide)
  have h2 : T.type_dtun_register ≠ T.type_nat_echo_redirect :=
    case_labels_ne T hnd 7 2 (by decide) (by decide) (by decide)
  have h3 : T.type_dtun_register ≠ T.type_dtun_ping :=
    case_labels_ne T hnd 7 3 (by decide) (by decide) (by decide)
  have h4 : T.type_dtun_register ≠ T.type_dtun_ping_reply :=
    case_labels_ne T hnd 7 4 (by decide) (by decide) (by decide)
  have h5 : T.type_dtun_register ≠ T.type_dtun_find_node :=
    case_labels_ne T hnd 7 5 (by decide) (by decide) (by decide)
  have h6 : T.type_dtun_register ≠ T.type_dtun_find_node_reply :=
    case_labels_ne T hnd 7 6 (by decide) (by decide) (by decide)
  simp only [dispatch]
  rw [hty, if_neg h0, if_neg h1, if_neg h2, if_neg h3, if_neg h4, if_neg h5, if_neg h6, if_pos rfl]

theorem dispatch_dtun_find_value (T : cagetypes) (hnd : T.case_labels.Nodup) (buf : List Nat)
    (len : Int) (src : Nat) (fromlen : Int) (hty : hdr_type T buf = T.type_dtun_find_value) :
    dispatch T buf len src fromlen =
      if len = int_cast T.sizeof_msg_dtun_find_value then [.recv_find_value buf src fromlen] else [] := by
  have h0 : T.type_dtun_find_value ≠ T.type_nat_echo :=
    case_labels_ne T hnd 8 0 (by decide) (by decide) (by decide)
  have h1 : T.type_dtun_find_value ≠ T.type_nat_echo_reply :=
    case_labels_ne T hnd 8 1 (by decide) (by decide) (by decide)
  have h2 : T.type_dtun_find_value ≠ T.type_nat_echo_redirect :=
    case_labels_ne T hnd 8 2 (by decide) (by decide) (by decide)
  have h3 : T.type_dtun_find_value ≠ T.type_dtun_ping :=
    case_labels_ne T hnd 8 3 (by decide) (by decide) (by decide)
  have h4 : T.type_dtun_find_value ≠ T.type_dtun_ping_reply :=
    case_labels_ne T hnd 8 4 (by decide) (by decide) (by decide)
  have h5 : T.type_dtun_find_value ≠ T.type_dtun_find_node :=
    case_labels_ne T hnd 8 5 (by decide) (by decide) (by decide)
  have h6 : T.type_dtun_find_value ≠ T.type_dtun_find_node_reply :=
    case_labels_ne T hnd 8 6 (by decide) (by decide) (by decide)
  have h7 : T.type_dtun_find_value ≠ T.type_dtun_register :=
    case_labels_ne T hnd 8 7 (by decide) (by decide) (by decide)
  simp only [dispatch]
  rw [hty, if_neg h0, if_neg h1, if_neg h2, if_neg h3, if_neg h4, if_neg h5, if_neg h6, if_neg h7, if_pos rfl]

theorem dispatch_dtun_find_value_reply (T : cagetypes) (hnd : T.case_labels.Nodup) (buf : List Nat)
    (len : Int) (src : Nat) (fromlen : Int) (hty : hdr_type T buf = T.type_dtun_find_value_reply) :
    dispatch T buf len src fromlen =
      if len ≥ int_cast (size_sub T.sizeof_msg_dtun_find_value_reply sizeof_uint32_t) then [.recv_find_value_reply buf len src] else [] := by
  have h0 : T.type_dtun_find_value_reply ≠ T.type_nat_echo :=
    case_labels_ne T hnd 9 0 (by decide) (by decide) (by decide)
  have h1 : T.type_dtun_find_value_reply ≠ T.type_nat_echo_reply :=
    case_labels_ne T hnd 9 1 (by decide) (by decide) (by decide)
  have h2 : T.type_dtun_find_value_reply ≠ T.type_nat_echo_redirect :=
    case_labels_ne T hnd 9 2 (by decide) (by decide) (by decide)
  have h3 : T.type_dtun_find_value_reply ≠ T.type_dtun_ping :=
    case_labels_ne T hnd 9 3 (by decide) (by decide) (by decide)
  have h4 : T.type_dtun_find_value_reply ≠ T.type_dtun_ping_reply :=
    case_labels_ne T hnd 9 4 (by decide) (by decide) (by decide)
  have h5 : T.type_dtun_find_value_reply ≠ T.type_dtun_find_node :=
    case_labels_ne T hnd 9 5 (by decide) (by decide) (by decide)
  have h6 : T.type_dtun_find_value_reply ≠ T.type_dtun_find_node_reply :=
    case_labels_ne T hnd 9 6 (by decide) (by decide) (by decide)
  have h7 : T.type_dtun_find_value_reply ≠ T.type_dtun_register :=
    case_labels_ne T hnd 9 7 (by decide) (by decide) (by decide)
  have h8 : T.type_dtun_find_value_reply ≠ T.type_dtun_find_value :=
    case_labels_ne T hnd 9 8 (by decide) (by decide) (by decide)
  simp only [dispatch]
  rw [hty, if_neg h0, if_neg h1, if_neg h2, if_neg h3, if_neg h4, if_neg h5, if_neg h6, if_neg h7, if_neg h8, if_pos rfl]

/-- C1: a datagram of at least header length whose magic, after network-to-host
conversion, differs from `MAGIC_NUMBER`, or whose version differs from `CAGE_VERSION`,
is dropped whole: the receiver makes no call at all, neither to a NAT or DTUN handler
nor to RDP, and does not even read the type field, whatever the type and length. -/
theorem udp_receiver_drops_bad_magic_or_version (T : cagetypes) (buf : List Nat)
    (len : Int) (src : Nat) (fromlen : Int) (tmo : Bool)
    (_hlen : int_cast T.sizeof_msg_hdr ≤ len)
    (hbad : hdr_magic T buf ≠ T.MAGIC_NUMBER ∨ hdr_ver T buf ≠ T.CAGE_VERSION) :
    (udp_receiver T buf len src fromlen tmo).calls = [] ∧
      hdr_field.type ∉ (udp_receiver T buf len src fromlen tmo).reads := by
  unfold udp_receiver
  by_cases h1 : len < int_cast T.sizeof_msg_hdr
  · simp [h1]
  · by_cases h2 : hdr_magic T buf = T.MAGIC_NUMBER
    · have h3 : hdr_ver T buf ≠ T.CAGE_VERSION := hbad.resolve_left (not_not.mpr h2)
      simp [h1, h2, h3]
    · simp [h1, h2]

/-- Witness for C1: a 52-byte datagram of type `nat_echo` with magic `0xbabf`, and one
with good magic and version 1. -/
theorem udp_receiver_drops_bad_magic_or_version_witness :
    (int_cast sample_types.sizeof_msg_hdr ≤ 52 ∧
      (hdr_magic sample_types ([186, 191, 0, 1] ++ List.replicate 48 0)
          ≠ sample_types.MAGIC_NUMBER ∨
        hdr_ver sample_types ([186, 191, 0, 1] ++ List.replicate 48 0)
          ≠ sample_types.CAGE_VERSION)) ∧
    ((udp_receiver sample_types ([186, 191, 0, 1] ++ List.replicate 48 0) 52 9 16 false).calls
        = [] ∧
      hdr_field.type ∉
        (udp_receiver sample_types ([186, 191, 0, 1] ++ List.replicate 48 0) 52 9 16
          false).reads) :=
  ⟨⟨by decide, Or.inl (by decide)⟩,
   udp_receiver_drops_bad_magic_or_version sample_types
     ([186, 191, 0, 1] ++ List.replicate 48 0) 52 9 16 false (by decide)
     (Or.inl (by decide))⟩

/-- C2: a datagram whose length is below the size of the common header, be it 3, zero
or negative, makes the receiver return at once: no header field is read (whatever the
buffer holds) and no handler is called. -/
theorem udp_receiver_short_datagram (T : cagetypes) (buf : List Nat) (len : Int)
    (src : Nat) (fromlen : Int) (tmo : Bool) (hshort : len < int_cast T.sizeof_msg_hdr) :
    udp_receiver T buf len src fromlen tmo = { reads := [], calls := [] } := by
  unfold udp_receiver
  rw [if_pos hshort]

/-- Witness for C2: lengths 3, 0 and -1 against a 48-byte header, the three bytes
being the start of a well-formed datagram. -/
theorem udp_receiver_short_datagram_witness :
    ((3 : Int) < int_cast sample_types.sizeof_msg_hdr ∧
      udp_receiver sample_types [186, 190, 0] 3 9 16 false = { reads := [], calls := [] }) ∧
    ((0 : Int) < int_cast sample_types.sizeof_msg_hdr ∧
      udp_receiver sample_types [] 0 9 16 false = { reads := [], calls := [] }) ∧
    ((-1 : Int) < int_cast sample_types.sizeof_msg_hdr ∧
      udp_receiver sample_types [186, 190, 0, 1] (-1) 9 16 false
        = { reads := [], calls := [] }) :=
  ⟨⟨by decide, udp_receiver_short_datagram sample_types [186, 190, 0] 3 9 16 false (by decide)⟩,
   ⟨by decide, udp_receiver_short_datagram sample_types [] 0 9 16 false (by decide)⟩,
   ⟨by decide,
    udp_receiver_short_datagram sample_types [186, 190, 0, 1] (-1) 9 16 false (by decide)⟩⟩

/-- C3: two `rdp_addr` values compare equal exactly when the pointed-to destination
ids have the same value, the destination ports are equal and the source ports are
equal; they compare unequal exactly when one of the three differs. The pointers
themselves are not compared. -/
theorem rdp_addr_eq_iff (heap : Nat → Nat) (a b : rdp_addr) :
    (rdp_addr.eq heap a b = true ↔
      (heap a.did = heap b.did ∧ a.dport = b.dport ∧ a.sport = b.sport)) ∧
    (rdp_addr.eq heap a b = false ↔
      (heap a.did ≠ heap b.did ∨ a.dport ≠ b.dport ∨ a.sport ≠ b.sport)) := by
  have key : rdp_addr.eq heap a b = true ↔
      (heap a.did = heap b.did ∧ a.dport = b.dport ∧ a.sport = b.sport) := by
    unfold rdp_addr.eq id_eq
    simp [Bool.and_eq_true, and_assoc]
  refine ⟨key, ?_⟩
  rw [← Bool.not_eq_true, key]
  constructor
  · intro h
    by_contra hc
    push_neg at hc
    exact h hc
  · rintro (h | h | h) ⟨h1, h2, h3⟩
    · exact h h1
    · exact h h2
    · exact h h3

/-- C4: `rdp_head` is, in this order, flags (1 byte), header length (1), source port
(2), destination port (2), payload length (2), sequence number (4), ack number (4),
checksum (1); `rdp_syn` is that header followed by max-outstanding segments (2), max
segment size (2) and options (2). -/
theorem rdp_head_and_syn_members :
    c_widths rdp_head_decl =
      [("flags", 1), ("hlen", 1), ("sport", 2), ("dport", 2), ("dlen", 2), ("seqnum", 4),
       ("acknum", 4), ("checksum", 1)] ∧
    rdp_syn_decl.head? = some (c_member.embedded "head" rdp_head_decl) ∧
    c_widths (c_flatten rdp_syn_decl) =
      c_widths rdp_head_decl ++ [("out_segs_max", 2), ("seg_size_max", 2), ("options", 2)] :=
  ⟨rfl, rfl, rfl⟩

/-- C5, counterexample: on a well-formed 52-byte `nat_echo` datagram the receiver calls
`recv_echo` and makes no call of `rdp::input_dgram`, so the number of such calls is
not one. -/
theorem udp_receiver_input_dgram_once_counterexample :
    (udp_receiver sample_types (sample_dgram 1 52) 52 9 16 false).calls.countP
      handler_call.is_input_dgram ≠ 1 := by
  decide

/-- C5, amended: the receiver never calls `rdp::input_dgram`; whatever the datagram,
none of its calls is an RDP delivery. -/
theorem udp_receiver_never_input_dgram (T : cagetypes) (buf : List Nat) (len : Int)
    (src : Nat) (fromlen : Int) (tmo : Bool) :
    (udp_receiver T buf len src fromlen tmo).calls.countP handler_call.is_input_dgram = 0 := by
  have hd : (dispatch T buf len src fromlen).countP handler_call.is_input_dgram = 0 := by
    apply dispatch_elim (fun l => l.countP handler_call.is_input_dgram = 0)
    · rfl
    · intro c hc
      simp [hc]
  unfold udp_receiver
  split_ifs
  · rfl
  · rfl
  · rfl
  · exact hd

/-- C9: for a datagram that passes the length, magic and version checks and whose type
is one of the eight fixed-size types, the receiver calls that type's handler, once, if
the length equals the size of that type's structure, and calls nothing if the length
differs from it, be it by one byte. -/
theorem udp_receiver_fixed_size_types (T : cagetypes) (hwf : T.wf) (buf : List Nat)
    (len : Int) (src : Nat) (fromlen : Int) (tmo : Bool)
    (hpass : passes_checks T buf len) :
    (hdr_type T buf = T.type_nat_echo →
      (udp_receiver T buf len src fromlen tmo).calls =
        if len = (T.sizeof_msg_nat_echo : Int) then [.recv_echo buf src fromlen] else []) ∧
    (hdr_type T buf = T.type_nat_echo_reply →
      (udp_receiver T buf len src fromlen tmo).calls =
        if len = (T.sizeof_msg_nat_echo_reply : Int) then [.recv_echo_reply buf src fromlen] else []) ∧
    (hdr_type T buf = T.type_nat_echo_redirect →
      (udp_receiver T buf len src fromlen tmo).calls =
        if len = (T.sizeof_msg_nat_echo_redirect : Int) then [.recv_echo_redirect buf src fromlen] else []) ∧
    (hdr_type T buf = T.type_dtun_ping →
      (udp_receiver T buf len src fromlen tmo).calls =
        if len = (T.sizeof_msg_dtun_ping : Int) then [.recv_ping buf src fromlen] else []) ∧
    (hdr_type T buf = T.type_dtun_ping_reply →
      (udp_receiver T buf len src fromlen tmo).calls =
        if len = (T.sizeof_msg_dtun_ping_reply : Int) then [.recv_ping_reply buf src fromlen] else []) ∧
    (hdr_type T buf = T.type_dtun_find_node →
      (udp_receiver T buf len src fromlen tmo).calls =
        if len = (T.sizeof_msg_dtun_find_node : Int) then [.recv_find_node buf src fromlen] else []) ∧
    (hdr_type T buf = T.type_dtun_register →
      (udp_receiver T buf len src fromlen tmo).calls =
        if len = (T.sizeof_msg_dtun_register : Int) then [.recv_register buf src] else []) ∧
    (hdr_type T buf = T.type_dtun_find_value →
      (udp_receiver T buf len src fromlen tmo).calls =
        if len = (T.sizeof_msg_dtun_find_value : Int) then [.recv_find_value buf src fromlen] else []) := by
  obtain ⟨hnd, -, hs, -, -⟩ := hwf
  rw [udp_receiver_calls_of_passes T buf len src fromlen tmo hpass]
  refine ⟨?_, ?_, ?_, ?_, ?_, ?_, ?_, ?_⟩
  · intro hty
    rw [dispatch_nat_echo T hnd buf len src fromlen hty, int_cast_of_lt (hs _ (by simp [cagetypes.message_sizes]))]
  · intro hty
    rw [dispatch_nat_echo_reply T hnd buf len src fromlen hty, int_cast_of_lt (hs _ (by simp [cagetypes.message_sizes]))]
  · intro hty
    rw [dispatch_nat_echo_redirect T hnd buf len src fromlen hty, int_cast_of_lt (hs _ (by simp [cagetypes.message_sizes]))]
  · intro hty
    rw [dispatch_dtun_ping T hnd buf len src fromlen hty, int_cast_of_lt (hs _ (by simp [cagetypes.message_sizes]))]
  · intro hty
    rw [dispatch_dtun_ping_reply T hnd buf len src fromlen hty, int_cast_of_lt (hs _ (by simp [cagetypes.message_sizes]))]
  · intro hty
    rw [dispatch_dtun_find_node T hnd buf len src fromlen hty, int_cast_of_lt (hs _ (by simp [cagetypes.message_sizes]))]
  · intro hty
    rw [dispatch_dtun_register T hnd buf len src fromlen hty, int_cast_of_lt (hs _ (by simp [cagetypes.message_sizes]))]
  · intro hty
    rw [dispatch_dtun_find_value T hnd buf len src fromlen hty, int_cast_of_lt (hs _ (by simp [cagetypes.message_sizes]))]

/-- Witness for C9: a `dtun_ping` datagram of exactly 52 bytes reaches `recv_ping`;
the same datagram with one byte more, or one byte less, reaches nothing. -/
theorem udp_receiver_fixed_size_types_witness :
    sample_types.wf ∧
    passes_checks sample_types (sample_dgram 4 52) 52 ∧
    (udp_receiver sample_types (sample_dgram 4 52) 52 9 16 false).calls =
      [.recv_ping (sample_dgram 4 52) 9 16] ∧
    passes_checks sample_types (sample_dgram 4 53) 53 ∧
    (udp_receiver sample_types (sample_dgram 4 53) 53 9 16 false).calls = [] ∧
    passes_checks sample_types (sample_dgram 4 51) 51 ∧
    (udp_receiver sample_types (sample_dgram 4 51) 51 9 16 false).calls = [] :=
  ⟨by decide, by decide,
   ((udp_receiver_fixed_size_types sample_types (by decide) (sample_dgram 4 52) 52 9 16 false
      (by decide)).2.2.2.1 (by decide)).trans (if_pos (by decide)),
   by decide,
   ((udp_receiver_fixed_size_types sample_types (by decide) (sample_dgram 4 53) 53 9 16 false
      (by decide)).2.2.2.1 (by decide)).trans (if_neg (by decide)),
   by decide,
   ((udp_receiver_fixed_size_types sample_types (by decide) (sample_dgram 4 51) 51 9 16 false
      (by decide)).2.2.2.1 (by decide)).trans (if_neg (by decide))⟩

/-- C10: for a datagram that passes the length, magic and version checks and whose type
is `dtun_find_node_reply` or `dtun_find_value_reply`, the receiver calls the reply
handler, passing it the actual length, if the length is at least the size of the reply
structure minus the four bytes of a `uint32_t`, however large it is, and calls nothing
if the length is smaller. -/
theorem udp_receiver_reply_types (T : cagetypes) (hwf : T.wf) (buf : List Nat)
    (len : Int) (src : Nat) (fromlen : Int) (tmo : Bool)
    (hpass : passes_checks T buf len) :
    (hdr_type T buf = T.type_dtun_find_node_reply →
      (udp_receiver T buf len src fromlen tmo).calls =
        if (T.sizeof_msg_dtun_find_node_reply : Int) - 4 ≤ len then
          [.recv_find_node_reply buf len src]
        else []) ∧
    (hdr_type T buf = T.type_dtun_find_value_reply →
      (udp_receiver T buf len src fromlen tmo).calls =
        if (T.sizeof_msg_dtun_find_value_reply : Int) - 4 ≤ len then
          [.recv_find_value_reply buf len src]
        else []) := by
  obtain ⟨hnd, -, hs, h4n, h4v⟩ := hwf
  rw [udp_receiver_calls_of_passes T buf len src fromlen tmo hpass]
  refine ⟨?_, ?_⟩
  · intro hty
    rw [dispatch_dtun_find_node_reply T hnd buf len src fromlen hty,
      int_cast_size_sub h4n (hs _ (by simp [cagetypes.message_sizes]))]
  · intro hty
    rw [dispatch_dtun_find_value_reply T hnd buf len src fromlen hty,
      int_cast_size_sub h4v (hs _ (by simp [cagetypes.message_sizes]))]

/-- Witness for C10: against an 80-byte `find_node_reply` structure, lengths 76 and 300
reach `recv_find_node_reply` with that length, and length 75 reaches nothing. -/
theorem udp_receiver_reply_types_witness :
    sample_types.wf ∧
    passes_checks sample_types (sample_dgram 7 76) 76 ∧
    (udp_receiver sample_types (sample_dgram 7 76) 76 9 16 false).calls =
      [.recv_find_node_reply (sample_dgram 7 76) 76 9] ∧
    passes_checks sample_types (sample_dgram 7 300) 300 ∧
    (udp_receiver sample_types (sample_dgram 7 300) 300 9 16 false).calls =
      [.recv_find_node_reply (sample_dgram 7 300) 300 9] ∧
    passes_checks sample_types (sample_dgram 7 75) 75 ∧
    (udp_receiver sample_types (sample_dgram 7 75) 75 9 16 false).calls = [] :=
  ⟨by decide, by decide,
   ((udp_receiver_reply_types sample_types (by decide) (sample_dgram 7 76) 76 9 16 false
      (by decide)).1 (by decide)).trans (if_pos (by decide)),
   by decide,
   ((udp_receiver_reply_types sample_types (by decide) (sample_dgram 7 300) 300 9 16 false
      (by decide)).1 (by decide)).trans (if_pos (by decide)),
   by decide,
   ((udp_receiver_reply_types sample_types (by decide) (sample_dgram 7 75) 75 9 16 false
      (by decide)).1 (by decide)).trans (if_neg (by decide))⟩

/-! ## Sequence arithmetic and the acknowledgement step -/

theorem precedes_self (x : Nat) : precedes x x = false := by
  unfold precedes seq_diff
  simp only [decide_eq_false_iff_not]
  split <;> omega

theorem receive_segment_keeps_send_side (c acc : rdp_con) (h : receive_segment c = some acc) :
    acc.snd_una = c.snd_una ∧ acc.seg_ack = c.seg_ack := by
  unfold receive_segment at h
  split_ifs at h
  · cases h; exact ⟨rfl, rfl⟩
  · cases h; exact ⟨rfl, rfl⟩
  · cases h; exact ⟨rfl, rfl⟩

/-- C6: with `precedes(a, b)` meaning that the signed difference `a - b`, computed
modulo `2^32`, is negative, `precedes(x, x+1)` holds for every 32-bit `x`, the sum
taken modulo `2^32`, and `precedes(x, x + 2^31)` is false for every 32-bit `x`. -/
theorem precedes_wraparound_and_boundary (x : Nat) (_hx : x < 4294967296) :
    precedes x ((x + 1) % 4294967296) = true ∧
      precedes x ((x + 2147483648) % 4294967296) = false := by
  unfold precedes seq_diff
  simp only [decide_eq_true_eq, decide_eq_false_iff_not]
  constructor <;> split <;> omega

/-- Witness for C6: the largest sequence number, whose successor wraps to 0, and the
sequence number 0. -/
theorem precedes_wraparound_and_boundary_witness :
    (4294967295 < 4294967296 ∧
      precedes 4294967295 ((4294967295 + 1) % 4294967296) = true ∧
      precedes 4294967295 ((4294967295 + 2147483648) % 4294967296) = false) ∧
    (0 < 4294967296 ∧
      precedes 0 ((0 + 1) % 4294967296) = true ∧
      precedes 0 ((0 + 2147483648) % 4294967296) = false) :=
  ⟨⟨by decide, precedes_wraparound_and_boundary 4294967295 (by decide)⟩,
   ⟨by decide, precedes_wraparound_and_boundary 0 (by decide)⟩⟩

/-- C7: for a connection in state OPEN and a segment that carries an ACK field,
`in_state_open` never moves `snd_una` backward: if `seg_ack` is sequence-less-than
`snd_una` then `snd_una` is unchanged; if `snd_una` changes, it becomes `seg_ack` and
`seg_ack` is not sequence-less-than the old `snd_una`; and the new `snd_una` is never
sequence-less-than the old one. -/
theorem in_state_open_snd_una_not_backward (F : rdp_flags) (con : rdp_con) (addr : rdp_addr)
    (head : rdp_head) (len : Int) (_hopen : con.state = rdp_state.OPEN)
    (_hack : has_flag head F.flag_ack = true) :
    (precedes head.acknum con.snd_una = true →
      (in_state_open F con addr head len).snd_una = con.snd_una) ∧
    ((in_state_open F con addr head len).snd_una ≠ con.snd_una →
      (in_state_open F con addr head len).snd_una = head.acknum ∧
        precedes head.acknum con.snd_una = false) ∧
    precedes (in_state_open F con addr head len).snd_una con.snd_una = false := by
  have hsame : ∀ c : rdp_con, c.snd_una = con.snd_una →
      (precedes head.acknum con.snd_una = true → c.snd_una = con.snd_una) ∧
      (c.snd_una ≠ con.snd_una →
        c.snd_una = head.acknum ∧ precedes head.acknum con.snd_una = false) ∧
      precedes c.snd_una con.snd_una = false := by
    intro c hc
    refine ⟨fun _ => hc, fun hne => absurd hc hne, ?_⟩
    rw [hc]
    exact precedes_self _
  unfold in_state_open
  split
  · exact hsame _ rfl
  · split
    · exact hsame _ rfl
    · split
      · exact hsame _ rfl
      · rename_i acc hacc
        obtain ⟨huna, hsack⟩ := receive_segment_keeps_send_side _ acc hacc
        simp only at huna hsack
        unfold process_ack
        rw [hsack, huna]
        split
        · exact hsame _ huna
        · rename_i hnp
          have hfalse : precedes head.acknum con.snd_una = false := by
            simpa using hnp
          refine ⟨fun h => ?_, fun _ => ⟨rfl, hfalse⟩, hfalse⟩
          rw [hfalse] at h
          exact absurd h (by decide)

/-- Witness for C7: on a connection with `snd_una = 100`, an in-order ACK segment with
`seg_ack = 105` moves `snd_una` to 105, and the theorem holds there. -/
theorem in_state_open_snd_una_not_backward_witness :
    (sample_con.state = rdp_state.OPEN ∧
      has_flag (sample_ack_segment 105) sample_flags.flag_ack = true) ∧
    (in_state_open sample_flags sample_con sample_con.addr (sample_ack_segment 105) 17).snd_una
      = 105 ∧
    ((precedes (sample_ack_segment 105).acknum sample_con.snd_una = true →
      (in_state_open sample_flags sample_con sample_con.addr (sample_ack_segment 105)
        17).snd_una = sample_con.snd_una) ∧
    ((in_state_open sample_flags sample_con sample_con.addr (sample_ack_segment 105)
        17).snd_una ≠ sample_con.snd_una →
      (in_state_open sample_flags sample_con sample_con.addr (sample_ack_segment 105)
        17).snd_una = (sample_ack_segment 105).acknum ∧
        precedes (sample_ack_segment 105).acknum sample_con.snd_una = false) ∧
    precedes (in_state_open sample_flags sample_con sample_con.addr (sample_ack_segment 105)
      17).snd_una sample_con.snd_una = false) :=
  ⟨⟨by decide, by decide⟩, by decide,
   in_state_open_snd_una_not_backward sample_flags sample_con sample_con.addr
     (sample_ack_segment 105) 17 (by decide) (by decide)⟩

/-! ## The node identity -/

/-- C8: the constructor asks the pseudo-random source for exactly 20 bytes, hands
`from_binary` those 20 bytes with length 20, and `m_id` is the result: an identifier
made from 160 bits, depending on nothing but those bytes. -/
theorem cage_ctor_id_from_twenty_bytes {Id : Type} (from_binary : List Nat → Nat → Id)
    (stream : Nat → Nat) :
    (cage_ctor from_binary stream).rand_num = 20 ∧
    (cage_ctor from_binary stream).from_binary_buf = RAND_pseudo_bytes stream 20 ∧
    (cage_ctor from_binary stream).from_binary_buf.length = 20 ∧
    8 * (cage_ctor from_binary stream).from_binary_buf.length = 160 ∧
    (cage_ctor from_binary stream).from_binary_len = 20 ∧
    (cage_ctor from_binary stream).m_id =
      from_binary ((List.range 20).map (fun i => stream i % 256)) 20 := by
  refine ⟨rfl, rfl, ?_, ?_, rfl, rfl⟩
  · simp [cage_ctor, RAND_pseudo_bytes]
  · simp [cage_ctor, RAND_pseudo_bytes]

/-! ## One datagram, at most one handler -/

theorem ite_pair {α β : Type} (P : α → β → Prop) (c : Prop) [Decidable c] (a a' : α)
    (b b' : β) (h1 : P a b) (h2 : P a' b') :
    P (if c then a else a') (if c then b else b') := by
  by_cases h : c
  · rw [if_pos h, if_pos h]; exact h1
  · rw [if_neg h, if_neg h]; exact h2

theorem ite_left {α β : Type} (P : α → β → Prop) (c : Prop) [Decidable c] (a a' : α)
    (b : β) (h1 : P a b) (h2 : P a' b) : P (if c then a else a') b := by
  by_cases h : c
  · rw [if_pos h]; exact h1
  · rw [if_neg h]; exact h2

/-- The `switch` calls nothing, or makes the one call that `case_handler` names for
the type code. -/
theorem dispatch_case_handler_elim (P : List handler_call → Option handler_kind → Prop)
    (T : cagetypes) (buf : List Nat) (len : Int) (src : Nat) (fromlen : Int)
    (hnone : ∀ o, P [] o) (hone : ∀ c : handler_call, P [c] (some c.kind)) :
    P (dispatch T buf len src fromlen) (case_handler T (hdr_type T buf)) := by
  simp only [dispatch, case_handler]
  repeat' first | apply ite_pair P | apply ite_left P
  all_goals first | exact hnone _ | exact hone _

theorem dispatch_kind (T : cagetypes) (buf : List Nat) (len : Int) (src : Nat)
    (fromlen : Int) :
    ∀ c ∈ dispatch T buf len src fromlen, some c.kind = case_handler T (hdr_type T buf) := by
  apply dispatch_case_handler_elim (fun l o => ∀ c ∈ l, some c.kind = o)
  · intro o c hc
    simp at hc
  · intro c0 c hc
    rw [List.mem_singleton] at hc
    rw [hc]

theorem dispatch_unknown_type (T : cagetypes) (buf : List Nat) (len : Int) (src : Nat)
    (fromlen : Int) (hty : hdr_type T buf ∉ T.case_labels) :
    dispatch T buf len src fromlen = [] := by
  simp only [cagetypes.case_labels, List.mem_cons, List.mem_singleton, List.not_mem_nil,
    or_false, not_or] at hty
  obtain ⟨h0, h1, h2, h3, h4, h5, h6, h7, h8, h9⟩ := hty
  simp only [dispatch]
  rw [if_neg h0, if_neg h1, if_neg h2, if_neg h3, if_neg h4, if_neg h5, if_neg h6, if_neg h7, if_neg h8, if_neg h9]

theorem udp_receiver_calls_cases (T : cagetypes) (buf : List Nat) (len : Int) (src : Nat)
    (fromlen : Int) (tmo : Bool) :
    (udp_receiver T buf len src fromlen tmo).calls = [] ∨
      (udp_receiver T buf len src fromlen tmo).calls = dispatch T buf len src fromlen := by
  unfold udp_receiver
  split_ifs
  · exact Or.inl rfl
  · exact Or.inl rfl
  · exact Or.inl rfl
  · exact Or.inr rfl

/-- C11: on every datagram the receiver calls at most one handler; the handler it may
call is the one the `switch` names for the header's type field, so two datagrams with
the same type field can only reach the same handler, whatever their lengths and
payloads; and when the type field is none of the ten known message types no handler
is called, for every length and payload. -/
theorem udp_receiver_at_most_one_handler (T : cagetypes) (buf : List Nat) (len : Int)
    (src : Nat) (fromlen : Int) (tmo : Bool) (buf2 : List Nat) (len2 : Int) (src2 : Nat)
    (fromlen2 : Int) (tmo2 : Bool) :
    (udp_receiver T buf len src fromlen tmo).calls.length ≤ 1 ∧
    (∀ c ∈ (udp_receiver T buf len src fromlen tmo).calls,
      some c.kind = case_handler T (hdr_type T buf)) ∧
    (hdr_type T buf = hdr_type T buf2 →
      ∀ c ∈ (udp_receiver T buf len src fromlen tmo).calls,
        ∀ c2 ∈ (udp_receiver T buf2 len2 src2 fromlen2 tmo2).calls, c.kind = c2.kind) ∧
    (hdr_type T buf ∉ T.case_labels →
      (udp_receiver T buf len src fromlen tmo).calls = []) := by
  have hkind : ∀ (b : List Nat) (l : Int) (s : Nat) (f : Int) (t : Bool),
      ∀ c ∈ (udp_receiver T b l s f t).calls, some c.kind = case_handler T (hdr_type T b) := by
    intro b l s f t c hc
    rcases udp_receiver_calls_cases T b l s f t with h | h
    · rw [h] at hc
      simp at hc
    · rw [h] at hc
      exact dispatch_kind T b l s f c hc
  refine ⟨?_, hkind buf len src fromlen tmo, ?_, ?_⟩
  · rcases udp_receiver_calls_cases T buf len src fromlen tmo with h | h
    · rw [h]
      exact Nat.zero_le 1
    · rw [h]
      apply dispatch_elim (fun l => l.length ≤ 1)
      · exact Nat.zero_le 1
      · intro c _
        exact Nat.le_refl 1
  · intro hty c hc c2 hc2
    have h1 := hkind buf len src fromlen tmo c hc
    have h2 := hkind buf2 len2 src2 fromlen2 tmo2 c2 hc2
    rw [← hty, ← h1] at h2
    exact (Option.some.inj h2).symm
  · intro hty
    rcases udp_receiver_calls_cases T buf len src fromlen tmo with h | h
    · exact h
    · rw [h]
      exact dispatch_unknown_type T buf len src fromlen hty

/-- Witness for C11: a well-formed 52-byte datagram with the unknown type code 77
reaches no handler; two `dtun_find_node_reply` datagrams of 76 and 300 bytes each
reach one handler, the same one. -/
theorem udp_receiver_at_most_one_handler_witness :
    (hdr_type sample_types (sample_dgram 77 52) ∉ sample_types.case_labels ∧
      (udp_receiver sample_types (sample_dgram 77 52) 52 9 16 false).calls = []) ∧
    (hdr_type sample_types (sample_dgram 7 76) = hdr_type sample_types (sample_dgram 7 300) ∧
      (udp_receiver sample_types (sample_dgram 7 76) 76 9 16 false).calls.length = 1 ∧
      (udp_receiver sample_types (sample_dgram 7 300) 300 8 16 true).calls.length = 1 ∧
      ∀ c ∈ (udp_receiver sample_types (sample_dgram 7 76) 76 9 16 false).calls,
        ∀ c2 ∈ (udp_receiver sample_types (sample_dgram 7 300) 300 8 16 true).calls,
          c.kind = c2.kind) :=
  ⟨⟨by decide,
    (udp_receiver_at_most_one_handler sample_types (sample_dgram 77 52) 52 9 16 false
      (sample_dgram 77 52) 52 9 16 false).2.2.2 (by decide)⟩,
   ⟨by decide, by decide, by decide,
    (udp_receiver_at_most_one_handler sample_types (sample_dgram 7 76) 76 9 16 false
      (sample_dgram 7 300) 300 8 16 true).2.2.1 (by decide)⟩⟩

end libcage
